import Mathlib

/-!
Verification development for the kiro-agent-sdk subprocess transport,
protocol codec and message model.

The Python source under `src/kiro_agent_sdk/` is shallowly embedded:
pure functions (`_build_command`, `_get_cli_path`, `parse_content_block`,
`parse_message`) become Lean functions over an explicit JSON value type;
the effectful transport operations (`stop`, and the `send_message` /
`receive_messages` primitives, which the repository declares through its
tests and callers but does not implement under `src/`) are modelled as
explicit state/trace transformers.
-/

namespace KiroSDK

/-- JSON values as produced by the Python `json` module for this protocol.
Numbers are restricted to integers (the protocol payloads the SDK
exchanges never rely on fractional numbers); objects are association
lists in insertion order, mirroring Python dict ordering. -/
inductive Json where
  | null : Json
  | bool (b : Bool) : Json
  | num (n : Int) : Json
  | str (s : String) : Json
  | arr (xs : List Json) : Json
  | obj (fields : List (String × Json)) : Json

/-- A decoded JSON object (Python `dict`): an association list of fields. -/
abbrev JObj := List (String × Json)

/-- Python `dict.get(k)`: the value of the first field named `k`, if any. -/
def jget (o : JObj) (k : String) : Option Json :=
  (o.find? (fun p => p.1 = k)).map (fun p => p.2)

/-- Content blocks, from `types.py`. The Python dataclasses carry whatever
values the parser hands them (type annotations are not enforced at
runtime), so each field holds a `Json` value. -/
inductive Block where
  | text (text : Json) : Block
  | tool_use (id : Json) (name : Json) (input : Json) : Block
  | tool_result (tool_use_id : Json) (content : Json) (is_error : Json) : Block

/-- Messages, from `types.py`. `parse_message` builds the content list with
the same block parser for every role, so every variant carries the full
`Block` union (the Python annotations narrow it, but nothing enforces
them at runtime). -/
inductive Message where
  | assistant (content : List Block) : Message
  | user (content : List Block) : Message
  | tool_result (tool_use_id : Json) (content : List Block) : Message

/-- Failures of the decode path.  `unknownBlockType` / `unknownMessageRole`
model the two `ValueError` raises in `message_parser.py` and carry the
offending tag (`none` when the key is missing, so Python's `dict.get`
returned `None`); `keyError` models a Python `KeyError` on a missing
required field; `attributeError` / `typeError` model the dynamic failures
when a content element or the content value is not of the expected
Python shape. -/
inductive ParseError where
  | unknownBlockType (tag : Option Json) : ParseError
  | unknownMessageRole (tag : Option Json) : ParseError
  | keyError (key : String) : ParseError
  | attributeError : ParseError
  | typeError : ParseError

/-- Embedding of `parse_content_block` (`message_parser.py`, lines 15-34).
The `elif` chain compares `block.get("type")` against the three string
tags; any other value (including a missing key) raises
`ValueError(f"Unknown content block type: ...")`.  Required fields are
looked up in the evaluation order of the Python constructor calls, and a
missing one is a `KeyError`; `is_error` defaults to `False` via
`block.get("is_error", False)`. -/
def parse_content_block (block : JObj) : Except ParseError Block :=
  match jget block "type" with
  | some (Json.str s) =>
    if s = "text" then
      match jget block "text" with
      | some t => Except.ok (Block.text t)
      | none => Except.error (ParseError.keyError "text")
    else if s = "tool_use" then
      match jget block "id" with
      | none => Except.error (ParseError.keyError "id")
      | some i =>
        match jget block "name" with
        | none => Except.error (ParseError.keyError "name")
        | some n =>
          match jget block "input" with
          | none => Except.error (ParseError.keyError "input")
          | some inp => Except.ok (Block.tool_use i n inp)
    else if s = "tool_result" then
      match jget block "tool_use_id" with
      | none => Except.error (ParseError.keyError "tool_use_id")
      | some tid =>
        match jget block "content" with
        | none => Except.error (ParseError.keyError "content")
        | some c =>
          Except.ok (Block.tool_result tid c
            ((jget block "is_error").getD (Json.bool false)))
    else Except.error (ParseError.unknownBlockType (some (Json.str s)))
  | tag => Except.error (ParseError.unknownBlockType tag)

/-- One element of a `content` array handed to `parse_content_block`: a
non-dict element fails with `AttributeError` when Python evaluates
`block.get("type")`. -/
def parse_block_json : Json → Except ParseError Block
  | Json.obj fields => parse_content_block fields
  | _ => Except.error ParseError.attributeError

/-- The list comprehension `[parse_content_block(b) for b in blocks]`:
eager, left-to-right, failing on the first bad element. -/
def parseBlocks : List Json → Except ParseError (List Block)
  | [] => Except.ok []
  | j :: rest =>
    match parse_block_json j with
    | Except.error e => Except.error e
    | Except.ok b =>
      match parseBlocks rest with
      | Except.error e => Except.error e
      | Except.ok bs => Except.ok (b :: bs)

/-- The shared `content = [parse_content_block(block) for block in
data["content"]]` step of `parse_message`: the key must be present
(`KeyError` otherwise); iterating a list parses each element; iterating a
non-empty string or dict hands a non-dict element to the block parser
(`AttributeError`); the empty string and empty dict iterate zero times;
other values are not iterable (`TypeError`). -/
def parseContent (data : JObj) : Except ParseError (List Block) :=
  match jget data "content" with
  | none => Except.error (ParseError.keyError "content")
  | some (Json.arr xs) => parseBlocks xs
  | some (Json.str s) =>
    if s.isEmpty then Except.ok [] else Except.error ParseError.attributeError
  | some (Json.obj fs) =>
    if fs.isEmpty then Except.ok [] else Except.error ParseError.attributeError
  | some _ => Except.error ParseError.typeError

/-- Embedding of `parse_message` (`message_parser.py`, lines 37-56).  The
`elif` chain compares `data.get("role")` against the three role tags;
any other value raises `ValueError(f"Unknown message role: ...")`.  For
`tool_result`, the content list is built first (as in the source) and
`data["tool_use_id"]` is looked up afterwards. -/
def parse_message (data : JObj) : Except ParseError Message :=
  match jget data "role" with
  | some (Json.str r) =>
    if r = "assistant" then
      match parseContent data with
      | Except.error e => Except.error e
      | Except.ok c => Except.ok (Message.assistant c)
    else if r = "user" then
      match parseContent data with
      | Except.error e => Except.error e
      | Except.ok c => Except.ok (Message.user c)
    else if r = "tool_result" then
      match parseContent data with
      | Except.error e => Except.error e
      | Except.ok c =>
        match jget data "tool_use_id" with
        | none => Except.error (ParseError.keyError "tool_use_id")
        | some tid => Except.ok (Message.tool_result tid c)
    else Except.error (ParseError.unknownMessageRole (some (Json.str r)))
  | tag => Except.error (ParseError.unknownMessageRole tag)

/-- Embedding of the `KiroAgentOptions` dataclass (`types.py`, lines
61-86), with the same field names and defaults.  `verbose` is the
non-negative verbosity counter; `cwd` (Python `str | Path`) is carried
as a string; `temperature` (Python `float`) is carried as an inert
`Float`; `mcp_servers` (Python `dict[str, Any]`) is carried as a JSON
object value.  None of the last four is ever read by
`_build_command`. -/
structure KiroAgentOptions where
  system_prompt : Option String := none
  model : Option String := none
  max_turns : Option Int := none
  temperature : Option Float := none
  allowed_tools : Option (List String) := none
  trust_all_tools : Bool := false
  mcp_servers : Option Json := none
  cwd : Option String := none
  cli_path : Option String := none
  verbose : Nat := 0
  resume_session : Option String := none

/-- Embedding of `KiroSubprocessTransport._get_cli_path`
(`subprocess_cli.py`, lines 16-29): `if options.cli_path:` is Python
truthiness, so both `None` and the empty string fall through to the
fixed default name `"kiro-cli"`. -/
def _get_cli_path (options : KiroAgentOptions) : String :=
  match options.cli_path with
  | some p => if p.isEmpty then "kiro-cli" else p
  | none => "kiro-cli"

/-- Embedding of `KiroSubprocessTransport._build_command`
(`subprocess_cli.py`, lines 31-49), step by step: the base command, then
`--trust-tools` with the comma-joined names when `allowed_tools` is
truthy (a non-empty list), then `--trust-all-tools`, then `--resume`
when `resume_session` is truthy (a non-empty string), then
`["-v"] * verbose` when `verbose` is truthy (non-zero). -/
def _build_command (options : KiroAgentOptions) : List String :=
  let cmd := [_get_cli_path options, "chat", "--no-interactive"]
  let cmd :=
    match options.allowed_tools with
    | some tools =>
      if tools.isEmpty then cmd
      else cmd ++ ["--trust-tools", String.intercalate "," tools]
    | none => cmd
  let cmd := if options.trust_all_tools then cmd ++ ["--trust-all-tools"] else cmd
  let cmd :=
    match options.resume_session with
    | some sid => if sid.isEmpty then cmd else cmd ++ ["--resume", sid]
    | none => cmd
  let cmd :=
    if options.verbose = 0 then cmd else cmd ++ List.replicate options.verbose "-v"
  cmd

/-- The executable token as the specification words it: the explicit
`cli_path` if set (absent or empty fields count as omitted), else the
fixed default name. -/
def specExecutable (o : KiroAgentOptions) : String :=
  ((o.cli_path).filter (fun s => !s.isEmpty)).getD "kiro-cli"

/-- The command sequence as the specification words it, section by
section: executable, the fixed `chat --no-interactive` tokens, the
`--trust-tools` pair for a non-empty allow-list, the standalone
`--trust-all-tools` flag, the `--resume` pair for a set session
identifier, and one `-v` token per unit of `verbose`.  Absent or empty
optional fields contribute nothing. -/
def specCommand (o : KiroAgentOptions) : List String :=
  [specExecutable o, "chat", "--no-interactive"]
    ++ (match o.allowed_tools with
        | some (t :: ts) => ["--trust-tools", String.intercalate "," (t :: ts)]
        | _ => [])
    ++ (if o.trust_all_tools then ["--trust-all-tools"] else [])
    ++ (match (o.resume_session).filter (fun s => !s.isEmpty) with
        | some sid => ["--resume", sid]
        | none => [])
    ++ List.replicate o.verbose "-v"

/-- Whitespace skipping for the JSON document grammar. -/
def skipWs (cs : List Char) : List Char :=
  cs.dropWhile (fun c => c = ' ' || c = '\t' || c = '\x0A' || c = '\x0D')

/-- Unescaping of the JSON string escapes the protocol uses. -/
def escUn (c : Char) : Option Char :=
  if c = '"' then some '"'
  else if c = '\\' then some '\\'
  else if c = '/' then some '/'
  else if c = 'n' then some '\x0A'
  else if c = 't' then some '\t'
  else if c = 'r' then some '\x0D'
  else none

/-- Parse the remainder of a JSON string literal (the opening quote
already consumed), returning its characters and the rest of the
input. -/
def parseStringRest : List Char → Option (List Char × List Char)
  | [] => none
  | '"' :: rest => some ([], rest)
  | '\\' :: c :: rest =>
    match escUn c with
    | some d => (parseStringRest rest).map (fun p => (d :: p.1, p.2))
    | none => none
  | c :: rest => (parseStringRest rest).map (fun p => (c :: p.1, p.2))

/-- Parse a JSON integer literal (optional minus, at least one digit). -/
def parseNum (cs : List Char) : Option (Json × List Char) :=
  let (neg, cs1) :=
    match cs with
    | '-' :: r => (true, r)
    | _ => (false, cs)
  let digits := cs1.takeWhile Char.isDigit
  let rest := cs1.dropWhile Char.isDigit
  if digits.isEmpty then none
  else
    let n : Nat := digits.foldl (fun a c => a * 10 + (c.toNat - 48)) 0
    some (Json.num (if neg then -(n : Int) else (n : Int)), rest)

mutual

/-- Fuel-based recursive-descent parser for one JSON value, modelling the
document grammar `json.loads` accepts, restricted to the fragment this
protocol exchanges (integer numbers, the common string escapes). -/
def parseVal : Nat → List Char → Option (Json × List Char)
  | 0, _ => none
  | Nat.succ fuel, cs =>
    match skipWs cs with
    | 'n' :: 'u' :: 'l' :: 'l' :: rest => some (Json.null, rest)
    | 't' :: 'r' :: 'u' :: 'e' :: rest => some (Json.bool true, rest)
    | 'f' :: 'a' :: 'l' :: 's' :: 'e' :: rest => some (Json.bool false, rest)
    | '"' :: rest => (parseStringRest rest).map (fun p => (Json.str (String.mk p.1), p.2))
    | '[' :: rest =>
      (match skipWs rest with
       | ']' :: r2 => some (Json.arr [], r2)
       | cs2 => (parseArrItems fuel cs2).map (fun p => (Json.arr p.1, p.2)))
    | '\x7b' :: rest =>
      (match skipWs rest with
       | '\x7d' :: r2 => some (Json.obj [], r2)
       | cs2 => (parseObjItems fuel cs2).map (fun p => (Json.obj p.1, p.2)))
    | cs1 => parseNum cs1

/-- Parse the non-empty comma-separated items of a JSON array, up to and
including the closing bracket. -/
def parseArrItems : Nat → List Char → Option (List Json × List Char)
  | 0, _ => none
  | Nat.succ fuel, cs =>
    match parseVal fuel cs with
    | none => none
    | some (v, rest) =>
      match skipWs rest with
      | ',' :: r2 => (parseArrItems fuel (skipWs r2)).map (fun p => (v :: p.1, p.2))
      | ']' :: r2 => some ([v], r2)
      | _ => none

/-- Parse the non-empty comma-separated members of a JSON object, up to
and including the closing brace. -/
def parseObjItems : Nat → List Char → Option (List (String × Json) × List Char)
  | 0, _ => none
  | Nat.succ fuel, cs =>
    match skipWs cs with
    | '"' :: rest =>
      (match parseStringRest rest with
       | none => none
       | some (key, r1) =>
         match skipWs r1 with
         | ':' :: r2 =>
           (match parseVal fuel (skipWs r2) with
            | none => none
            | some (v, r3) =>
              match skipWs r3 with
              | ',' :: r4 =>
                (parseObjItems fuel (skipWs r4)).map
                  (fun p => ((String.mk key, v) :: p.1, p.2))
              | '\x7d' :: r4 => some ([(String.mk key, v)], r4)
              | _ => none)
         | _ => none)
    | _ => none

end

/-- Modelled from the spec: the newline-delimited framing treats "each
complete line as one JSON document", decoded by the standard JSON
loader.  A document is one value with nothing but whitespace after
it. -/
def jsonLoads (s : String) : Option Json :=
  match parseVal (s.length + 1) s.data with
  | some (v, rest) => if (skipWs rest).isEmpty then some v else none
  | none => none

/-- Python whitespace test used by `str.strip()`, for the characters the
protocol can meet. -/
def isSpaceChar (c : Char) : Bool :=
  c = ' ' || c = '\t' || c = '\x0A' || c = '\x0D' || c = '\x0B' || c = '\x0C'

/-- Python `str.strip()`: drop leading and trailing whitespace. -/
def pyStrip (s : String) : String :=
  String.mk (((s.data.dropWhile isSpaceChar).reverse.dropWhile isSpaceChar).reverse)

/-- Embedding of the `CLIJSONDecodeError` payload (`_errors.py`, lines
24-29) that the claims reference: the raw offending line kept verbatim
for diagnostics. -/
structure CLIJSONDecodeError where
  raw_output : String

/-- Modelled from the spec: `receive_messages` is declared by the
transport's callers and tests but not implemented under `src/`.  Per
spec section 4.3 it reads the output stream line by line; a blank or
whitespace-only line is silently skipped; a line that fails JSON
parsing raises `CLIJSONDecodeError` carrying the raw offending line and
terminates the sequence; otherwise the decoded document is yielded in
order.  The result pairs the yielded documents with the terminating
error, if any. -/
def receive_messages : List String → List Json × Option CLIJSONDecodeError
  | [] => ([], none)
  | line :: rest =>
    let stripped := pyStrip line
    if stripped.data.isEmpty then receive_messages rest
    else
      match jsonLoads stripped with
      | some v =>
        let r := receive_messages rest
        (v :: r.1, r.2)
      | none => ([], some { raw_output := line })

/-- Per-line result of the receive loop: skipped, or one decoded
document. -/
def lineResult (l : String) : Option Json :=
  if (pyStrip l).data.isEmpty then none else jsonLoads (pyStrip l)

/-- Escaping of one character under the standard JSON serializer. -/
def escChar (c : Char) : String :=
  if c = '"' then "\\\""
  else if c = '\\' then "\\\\"
  else if c = '\x0A' then "\\n"
  else if c = '\t' then "\\t"
  else if c = '\x0D' then "\\r"
  else String.singleton c

/-- A JSON string literal under the standard serializer. -/
def escString (s : String) : String :=
  "\"" ++ String.join (s.data.map escChar) ++ "\""

mutual

/-- Serialization of a JSON value with the Python `json.dumps` default
separators (`", "` between items, `": "` after keys). -/
def jsonDumps : Json → String
  | Json.null => "null"
  | Json.bool true => "true"
  | Json.bool false => "false"
  | Json.num n => toString n
  | Json.str s => escString s
  | Json.arr xs => "[" ++ dumpsItems xs ++ "]"
  | Json.obj fs => "\x7b" ++ dumpsFields fs ++ "\x7d"

/-- Comma-joined serialized array items. -/
def dumpsItems : List Json → String
  | [] => ""
  | [x] => jsonDumps x
  | x :: y :: rest => jsonDumps x ++ ", " ++ dumpsItems (y :: rest)

/-- Comma-joined serialized object members. -/
def dumpsFields : List (String × Json) → String
  | [] => ""
  | [(k, v)] => escString k ++ ": " ++ jsonDumps v
  | (k, v) :: y :: rest => escString k ++ ": " ++ jsonDumps v ++ ", " ++ dumpsFields (y :: rest)

end

/-- The process input stream as the transport sees it: bytes handed to
`write` sit in a local buffer until `drain` moves them to the flushed
(delivered) sequence. -/
structure Stdin where
  buffered : List String
  flushed : List String

/-- The stream `write` primitive: appends to the local buffer only. -/
def writeData (data : String) (s : Stdin) : Stdin :=
  { s with buffered := s.buffered ++ [data] }

/-- The stream `drain` primitive: flushes the local buffer in order. -/
def drainStream (s : Stdin) : Stdin :=
  { buffered := [], flushed := s.flushed ++ s.buffered }

/-- Modelled from the spec: `send_message` is declared by the transport's
callers and tests but not implemented under `src/`.  Per spec section
4.3 it serializes the message to JSON, appends a single newline
terminator, writes the encoded bytes to the process input stream, and
waits for the write to be drained before returning. -/
def send_message (message : Json) (s : Stdin) : Stdin :=
  drainStream (writeData (jsonDumps message ++ "\x0A") s)

/-- Abstraction of one owned child process for the `stop` model.
`termExit` is the number of time units after the graceful-termination
request at which the process exits (`none`: it ignores the request);
`killExit` is the number of time units a forced kill takes to be
confirmed by the final wait. -/
structure ChildProcess where
  termExit : Option Nat
  killExit : Nat
deriving DecidableEq

/-- The transport state relevant to `stop`: the owned process handle,
kept `some` even after `stop` runs because `stop` never clears
`self.process` (`subprocess_cli.py`, lines 72-82). -/
structure KiroSubprocessTransport where
  process : Option ChildProcess
deriving DecidableEq

/-- Observable actions of one `stop` call, in order: `terminate` is
`self.process.terminate()`; `waitReturned t` is `asyncio.wait_for(wait,
timeout=5.0)` returning after `t` units; `timeout` is its
`TimeoutError`; `kill` is `self.process.kill()`; `waitConfirmed t` is
the unconditional final `await self.process.wait()`. -/
inductive StopEvent where
  | terminate : StopEvent
  | waitReturned (t : Nat) : StopEvent
  | timeout : StopEvent
  | kill : StopEvent
  | waitConfirmed (t : Nat) : StopEvent
deriving DecidableEq

/-- The fixed graceful-termination grace period (`timeout=5.0`). -/
def gracePeriod : Nat := 5

/-- Embedding of `KiroSubprocessTransport.stop` (`subprocess_cli.py`,
lines 72-82) as a state/trace/elapsed-time transformer.  `if not
self.process: return` is the empty trace; otherwise `terminate()` is
issued and the wait either returns within the grace period or times out
at `gracePeriod`, after which `kill()` and the unconditional wait run.
The returned state is the input state unchanged: the source never
assigns `self.process = None`. -/
def stop (tr : KiroSubprocessTransport) :
    KiroSubprocessTransport × List StopEvent × Nat :=
  match tr.process with
  | none => (tr, [], 0)
  | some p =>
    match p.termExit with
    | some t =>
      if t ≤ gracePeriod then
        (tr, [StopEvent.terminate, StopEvent.waitReturned t], t)
      else
        (tr, [StopEvent.terminate, StopEvent.timeout, StopEvent.kill,
              StopEvent.waitConfirmed p.killExit],
         gracePeriod + p.killExit)
    | none =>
      (tr, [StopEvent.terminate, StopEvent.timeout, StopEvent.kill,
            StopEvent.waitConfirmed p.killExit],
       gracePeriod + p.killExit)

/-- Modelled from the spec: the repository has no encoder for the inbound
message shape (encoding is described in spec sections 4.2 and 6).  A
content block maps back to its tagged wire object. -/
def encode_block : Block → Json
  | Block.text t => Json.obj [("type", Json.str "text"), ("text", t)]
  | Block.tool_use i n inp =>
    Json.obj [("type", Json.str "tool_use"), ("id", i), ("name", n), ("input", inp)]
  | Block.tool_result tid c e =>
    Json.obj [("type", Json.str "tool_result"), ("tool_use_id", tid),
              ("content", c), ("is_error", e)]

/-- Modelled from the spec: a message maps back to its tagged wire object
(spec section 6): `role`, the encoded `content` array, and
`tool_use_id` for the tool-result role. -/
def encode_message : Message → JObj
  | Message.assistant c =>
    [("role", Json.str "assistant"), ("content", Json.arr (c.map encode_block))]
  | Message.user c =>
    [("role", Json.str "user"), ("content", Json.arr (c.map encode_block))]
  | Message.tool_result tid c =>
    [("role", Json.str "tool_result"), ("tool_use_id", tid),
     ("content", Json.arr (c.map encode_block))]

/-- The role restriction of the data model, as the specification words
it: assistant content is text or tool-use blocks; user and tool-result
content is text blocks only. -/
def roleContentOK : Message → Bool
  | Message.assistant c =>
    c.all (fun b => match b with
      | Block.text _ => true
      | Block.tool_use _ _ _ => true
      | Block.tool_result _ _ _ => false)
  | Message.user c =>
    c.all (fun b => match b with
      | Block.text _ => true
      | _ => false)
  | Message.tool_result _ c =>
    c.all (fun b => match b with
      | Block.text _ => true
      | _ => false)

end KiroSDK

namespace KiroSDK

/-- Helper: the trailing verbosity step of `_build_command` always amounts
to appending one `-v` per unit of `verbose`, because zero replication is
the empty list. -/
theorem ite_verbose (c : List String) (v : Nat) :
    (if v = 0 then c else c ++ List.replicate v "-v") = c ++ List.replicate v "-v" := by
  cases v <;> simp

set_option maxHeartbeats 1000000 in
/-- C1: for every configuration, `_build_command` returns exactly the
sequence the specification describes: the executable token (explicit
non-empty `cli_path`, else the default name `kiro-cli`), the fixed
`chat --no-interactive` tokens, `--trust-tools` with the comma-joined
names when the allow-list is non-empty, `--trust-all-tools` when set,
`--resume` with the identifier when set and non-empty, and one `-v`
token per unit of `verbose`.  Absent or empty optional fields contribute
nothing, and the result is a pure function of the configuration, so the
same configuration always yields the identical sequence. -/
theorem build_command_is_spec_sequence (o : KiroAgentOptions) :
    _build_command o = specCommand o := by
  obtain ⟨sp, mo, mt, te, tools, tat, mcp, cw, cp, v, rs⟩ := o
  simp only [_build_command, _get_cli_path, specCommand, specExecutable, Option.filter,
    ite_verbose]
  rcases cp with _ | p <;>
  rcases tools with _ | (_ | ⟨t, ts⟩) <;>
  rcases rs with _ | s <;>
  cases tat <;>
  split_ifs <;>
  simp_all [List.append_assoc] <;>
  split_ifs <;>
  simp_all [List.append_assoc]

/-- C10: two configurations that agree on the five fields the command
builder reads (`allowed_tools`, `trust_all_tools`, `resume_session`,
`cli_path`, `verbose`) produce identical command sequences, however they
differ in `system_prompt`, `model`, `max_turns`, `temperature`,
`mcp_servers` and `cwd`. -/
theorem build_command_ignores_agent_fields (o1 o2 : KiroAgentOptions)
    (h1 : o1.allowed_tools = o2.allowed_tools)
    (h2 : o1.trust_all_tools = o2.trust_all_tools)
    (h3 : o1.resume_session = o2.resume_session)
    (h4 : o1.cli_path = o2.cli_path)
    (h5 : o1.verbose = o2.verbose) :
    _build_command o1 = _build_command o2 := by
  simp only [_build_command, _get_cli_path, h1, h2, h3, h4, h5]

/-- Witness for C10: a configuration with all six agent-side fields set
builds the same command as one with a different model and working
directory and nothing else set, namely the bare default command. -/
theorem build_command_ignores_agent_fields_witness :
    _build_command { system_prompt := some "You are a helpful assistant",
                     model := some "m1", max_turns := some 3, temperature := some 0.7,
                     mcp_servers := some (Json.obj [("srv", Json.obj [])]),
                     cwd := some "/tmp/a" }
      = _build_command { model := some "m2", cwd := some "/tmp/b" } ∧
    _build_command { model := some "m2", cwd := some "/tmp/b" }
      = ["kiro-cli", "chat", "--no-interactive"] :=
  ⟨build_command_ignores_agent_fields _ _ rfl rfl rfl rfl rfl, rfl⟩

/-- C5: `stop` is a no-op when no process is owned; otherwise it issues
the graceful termination request and either observes the exit within the
five-unit grace period, or times out, forcibly kills, and waits
unconditionally for the exit confirmation; its elapsed time never
exceeds the grace period plus the kill-confirmation wait. -/
theorem stop_spec (tr : KiroSubprocessTransport) :
    (tr.process = none → stop tr = (tr, [], 0)) ∧
    (∀ p, tr.process = some p →
      (∀ t, p.termExit = some t → t ≤ gracePeriod →
        stop tr = (tr, [StopEvent.terminate, StopEvent.waitReturned t], t)) ∧
      ((p.termExit = none ∨ ∃ t, p.termExit = some t ∧ gracePeriod < t) →
        stop tr = (tr, [StopEvent.terminate, StopEvent.timeout, StopEvent.kill,
                        StopEvent.waitConfirmed p.killExit],
                   gracePeriod + p.killExit)) ∧
      (stop tr).2.2 ≤ gracePeriod + p.killExit) := by
  constructor
  · intro h
    simp [stop, h]
  · intro p hp
    refine ⟨?_, ?_, ?_⟩
    · intro t ht hle
      simp [stop, hp, ht, hle]
    · intro hcase
      rcases hcase with hnone | ⟨t, ht, hgt⟩
      · simp [stop, hp, hnone]
      · simp [stop, hp, ht, Nat.not_le.mpr hgt]
    · rcases h : p.termExit with _ | t
      · simp [stop, hp, h]
      · by_cases hle : t ≤ gracePeriod
        · have e : (stop tr).2.2 = t := by simp [stop, hp, h, hle]
          rw [e]
          exact le_trans hle (Nat.le_add_right _ _)
        · simp [stop, hp, h, hle]

/-- Witness for C5: a process that ignores the termination request is
killed after the grace period and its exit confirmation takes two more
units, within the stated bound. -/
theorem stop_spec_witness :
    stop ⟨some ⟨none, 2⟩⟩ =
      (⟨some ⟨none, 2⟩⟩, [StopEvent.terminate, StopEvent.timeout, StopEvent.kill,
                          StopEvent.waitConfirmed 2], gracePeriod + 2) ∧
    (stop ⟨some ⟨none, 2⟩⟩).2.2 ≤ gracePeriod + 2 := by
  have h := stop_spec ⟨some ⟨none, 2⟩⟩
  exact ⟨(h.2 ⟨none, 2⟩ rfl).2.1 (Or.inl rfl), (h.2 ⟨none, 2⟩ rfl).2.2⟩

/-- C6 counter-evidence: `stop` never clears the process handle, so a
second call on a transport whose process already exited re-runs the
whole termination sequence — its trace again begins with the
`terminate` signal, contradicting the claim that stopping an
already-stopped transport does not re-signal the process. -/
theorem stop_second_call_reterminates :
    stop ((stop ⟨some ⟨some 1, 0⟩⟩).1) =
      (⟨some ⟨some 1, 0⟩⟩, [StopEvent.terminate, StopEvent.waitReturned 1], 1) ∧
    StopEvent.terminate ∈ (stop ((stop ⟨some ⟨some 1, 0⟩⟩).1)).2.1 := by
  decide

/-- C2: over any finite input whose non-blank lines all parse,
`receive_messages` yields exactly one decoded document per non-blank
line, in input order, silently skipping blank and whitespace-only
lines, and terminates without error when the lines are exhausted. -/
theorem receive_messages_skips_blank_lines (lines : List String)
    (h : ∀ l ∈ lines, (pyStrip l).data.isEmpty = false → (jsonLoads (pyStrip l)).isSome) :
    receive_messages lines = (lines.filterMap lineResult, none) := by
  induction lines with
  | nil => rfl
  | cons l rest ih =>
    have hrest : ∀ x ∈ rest, (pyStrip x).data.isEmpty = false → (jsonLoads (pyStrip x)).isSome :=
      fun x hx => h x (List.mem_cons_of_mem _ hx)
    cases hb : (pyStrip l).data.isEmpty with
    | true => simp [receive_messages, lineResult, hb, ih hrest]
    | false =>
      have hs := h l (List.mem_cons_self _ _) hb
      rcases hj : jsonLoads (pyStrip l) with _ | v
      · rw [hj] at hs
        cases hs
      · simp [receive_messages, lineResult, hb, hj, ih hrest]

/-- Witness for C2: the four-line input of the claim yields exactly the
two parsed objects, in order, with no error. -/
theorem receive_messages_skips_blank_lines_witness :
    receive_messages ["\x7b\"role\":\"assistant\"\x7d", "", "   ", "\x7b\"role\":\"user\"\x7d"]
      = ([Json.obj [("role", Json.str "assistant")], Json.obj [("role", Json.str "user")]],
         none) ∧
    (receive_messages ["\x7b\"role\":\"assistant\"\x7d", "", "   ", "\x7b\"role\":\"user\"\x7d"]).1.length = 2 :=
  ⟨(receive_messages_skips_blank_lines _ (by decide)).trans rfl, rfl⟩

/-- C3: when the input contains a malformed line (after well-formed or
blank ones), `receive_messages` yields only the documents decoded
before it, then terminates with a `CLIJSONDecodeError` carrying that
line's raw text verbatim, regardless of what follows — no later line
contributes anything. -/
theorem receive_messages_stops_on_malformed
    (pre : List String) (bad : String) (post : List String)
    (hpre : ∀ l ∈ pre, (pyStrip l).data.isEmpty = false → (jsonLoads (pyStrip l)).isSome)
    (hbadblank : (pyStrip bad).data.isEmpty = false)
    (hbad : jsonLoads (pyStrip bad) = none) :
    receive_messages (pre ++ bad :: post) =
      (pre.filterMap lineResult, some { raw_output := bad }) := by
  induction pre with
  | nil => simp [receive_messages, hbadblank, hbad]
  | cons l rest ih =>
    have hrest : ∀ x ∈ rest, (pyStrip x).data.isEmpty = false → (jsonLoads (pyStrip x)).isSome :=
      fun x hx => hpre x (List.mem_cons_of_mem _ hx)
    cases hb : (pyStrip l).data.isEmpty with
    | true => simp [receive_messages, lineResult, hb, ih hrest]
    | false =>
      have hs := hpre l (List.mem_cons_self _ _) hb
      rcases hj : jsonLoads (pyStrip l) with _ | v
      · rw [hj] at hs
        cases hs
      · simp [receive_messages, lineResult, hb, hj, ih hrest]

/-- Witness for C3: one good line, one malformed line, one further good
line: only the first line's document is yielded and the error carries
the malformed line verbatim. -/
theorem receive_messages_stops_on_malformed_witness :
    receive_messages ["\x7b\"role\":\"assistant\"\x7d", "\x7binvalid json", "\x7b\"role\":\"user\"\x7d"]
      = ([Json.obj [("role", Json.str "assistant")]],
         some { raw_output := "\x7binvalid json" }) :=
  (receive_messages_stops_on_malformed ["\x7b\"role\":\"assistant\"\x7d"] "\x7binvalid json"
    ["\x7b\"role\":\"user\"\x7d"] (by decide) (by decide) rfl).trans rfl

/-- C4: `send_message` serializes the message, appends a single newline
terminator, writes the encoded payload, and drains before returning:
after the call the local buffer is empty and the flushed stream has
gained everything previously buffered plus exactly the new payload, so
the call returning means the bytes have left the local buffer. -/
theorem send_message_drains_payload (message : Json) (s : Stdin) :
    (send_message message s).flushed = s.flushed ++ s.buffered ++ [jsonDumps message ++ "\x0A"] ∧
    (send_message message s).buffered = [] := by
  refine ⟨?_, rfl⟩
  simp [send_message, drainStream, writeData, List.append_assoc]

/-- C7: a block whose `type` tag is outside the recognized set fails with
the unknown-block-type error carrying the offending tag, and a message
whose `role` tag is outside the recognized set fails with the
unknown-message-role error carrying the offending tag; both failures
are immediate, with no partial decode. -/
theorem unknown_tags_fail (block data : JObj)
    (hb : ∀ s, jget block "type" = some (Json.str s) →
      s ≠ "text" ∧ s ≠ "tool_use" ∧ s ≠ "tool_result")
    (hr : ∀ s, jget data "role" = some (Json.str s) →
      s ≠ "assistant" ∧ s ≠ "user" ∧ s ≠ "tool_result") :
    parse_content_block block = Except.error (ParseError.unknownBlockType (jget block "type")) ∧
    parse_message data = Except.error (ParseError.unknownMessageRole (jget data "role")) := by
  constructor
  · rcases htag : jget block "type" with _ | j
    · simp [parse_content_block, htag]
    · rcases j with _ | b | n | s | xs | fs <;> simp [parse_content_block, htag]
      obtain ⟨h1, h2, h3⟩ := hb s htag
      simp [h1, h2, h3]
  · rcases htag : jget data "role" with _ | j
    · simp [parse_message, htag]
    · rcases j with _ | b | n | s | xs | fs <;> simp [parse_message, htag]
      obtain ⟨h1, h2, h3⟩ := hr s htag
      simp [h1, h2, h3]

/-- Witness for C7: the tag `banana` is rejected as a block type and the
tag `system` is rejected as a message role, each error carrying the
offending tag. -/
theorem unknown_tags_fail_witness :
    parse_content_block [("type", Json.str "banana")]
      = Except.error (ParseError.unknownBlockType (some (Json.str "banana"))) ∧
    parse_message [("role", Json.str "system")]
      = Except.error (ParseError.unknownMessageRole (some (Json.str "system"))) := by
  have h := unknown_tags_fail [("type", Json.str "banana")] [("role", Json.str "system")]
    (by intro s hs
        have hs2 : some (Json.str "banana") = some (Json.str s) := hs
        injection hs2 with h1
        injection h1 with h2
        subst h2
        exact ⟨by decide, by decide, by decide⟩)
    (by intro s hs
        have hs2 : some (Json.str "system") = some (Json.str s) := hs
        injection hs2 with h1
        injection h1 with h2
        subst h2
        exact ⟨by decide, by decide, by decide⟩)
  exact h

/-- C8 counter-evidence: `parse_message` accepts a `user` message whose
content holds a `tool_use` block and returns it unchanged, so the
decoded message violates the user role's text-only content restriction
stated by the data model (and by the dataclass annotations in
`types.py`). -/
theorem parse_message_accepts_tool_use_in_user_role :
    parse_message [("role", Json.str "user"),
        ("content", Json.arr [Json.obj [("type", Json.str "tool_use"),
          ("id", Json.str "t1"), ("name", Json.str "bash"), ("input", Json.obj [])]])]
      = Except.ok (Message.user [Block.tool_use (Json.str "t1") (Json.str "bash") (Json.obj [])]) ∧
    roleContentOK
      (Message.user [Block.tool_use (Json.str "t1") (Json.str "bash") (Json.obj [])]) = false :=
  ⟨rfl, rfl⟩

/-- Helper: decoding an encoded content block returns the block. -/
theorem parse_block_encode (b : Block) :
    parse_block_json (encode_block b) = Except.ok b := by
  cases b <;> rfl

/-- Helper: decoding an encoded content list returns the list. -/
theorem parseBlocks_encode (c : List Block) :
    parseBlocks (c.map encode_block) = Except.ok c := by
  induction c with
  | nil => rfl
  | cons b rest ih => simp [parseBlocks, parse_block_encode, ih]

/-- C9: every message of the inbound shape round-trips through the codec:
decoding the wire encoding of any message (any role, any content
blocks) returns exactly that message, with no information lost. -/
theorem decode_encode_roundtrip (m : Message) :
    parse_message (encode_message m) = Except.ok m := by
  cases m with
  | assistant c =>
    calc parse_message (encode_message (Message.assistant c))
        = (match parseBlocks (c.map encode_block) with
           | Except.error e => Except.error e
           | Except.ok cc => Except.ok (Message.assistant cc)) := rfl
      _ = Except.ok (Message.assistant c) := by rw [parseBlocks_encode]
  | user c =>
    calc parse_message (encode_message (Message.user c))
        = (match parseBlocks (c.map encode_block) with
           | Except.error e => Except.error e
           | Except.ok cc => Except.ok (Message.user cc)) := rfl
      _ = Except.ok (Message.user c) := by rw [parseBlocks_encode]
  | tool_result tid c =>
    calc parse_message (encode_message (Message.tool_result tid c))
        = (match parseBlocks (c.map encode_block) with
           | Except.error e => Except.error e
           | Except.ok cc => Except.ok (Message.tool_result tid cc)) := rfl
      _ = Except.ok (Message.tool_result tid c) := by rw [parseBlocks_encode]

end KiroSDK
